import Mathlib

/-!
# Verification of the Aagna-Naturals storefront logic

Shallow embedding of the client-side logic of the Aagna-Naturals repository:

* `src/ayurcart-nexus/src/components/admin/BlogsManagement.tsx`
  (admin blog editor: media parsing, file-cap handling, uploads,
  excerpt/title derivation);
* `src/ayurcart-nexus/src/pages/Blog.tsx`
  (public blog listing with its safe media parser, and the checkout
  component: total computation, three-step order write, order message
  composition and the chat deep link).

JavaScript strings are modelled through their character lists
(`String.data`); JavaScript numbers for money are idealised as `ℚ`
(no floating-point rounding, no `NaN`); remote services (database,
object store, `JSON.parse`) are external collaborators and enter as
explicit parameters or explicit state.
-/

/-! ## JavaScript string primitives

Each `js*` helper is the character-list semantics of the corresponding
JavaScript string operation used by the source. -/

/-- JS `s.startsWith(pre)`. -/
def jsStartsWith (s pre : String) : Bool :=
  List.isPrefixOf pre.data s.data

/-- JS `s.length` (astral code points idealised as single characters). -/
def jsLength (s : String) : Nat :=
  s.data.length

/-- JS `s.slice(0, n)`. -/
def jsSlice (s : String) (n : Nat) : String :=
  String.mk (s.data.take n)

/-- JS `s.trim()`: strip leading and trailing whitespace. -/
def jsTrim (s : String) : String :=
  String.mk (((s.data.dropWhile Char.isWhitespace).reverse.dropWhile
    Char.isWhitespace).reverse)

/-- JS `a || b` on strings: the empty string is falsy. -/
def jsOrString (a b : String) : String :=
  if a = "" then b else a

/-- JS `a || b` on (idealised, `NaN`-free) numbers: `0` is falsy. -/
def jsOrNum (a b : ℚ) : ℚ :=
  if a = 0 then b else a

/-- JS `a || b` on natural-valued numbers: `0` is falsy. -/
def jsOrNat (a b : Nat) : Nat :=
  if a = 0 then b else a

/-- JS `arr.join(sep)`. -/
def jsJoin (sep : String) : List String → String
  | [] => ""
  | [x] => x
  | x :: y :: xs => x ++ sep ++ jsJoin sep (y :: xs)

/-! ## Data model (from the TypeScript types and table shapes) -/

/-- The `MediaItem.type` union `"image" | "video" | "audio"`
(`BlogsManagement.tsx`). -/
inductive MediaType
  | image
  | video
  | audio
deriving DecidableEq, Repr

/-- `type MediaItem = { type: "image" | "video" | "audio"; url: string }`. -/
structure MediaItem where
  type : MediaType
  url : String
deriving DecidableEq, Repr

/-- A browser `File` as the source consumes it: its `name` and its declared
MIME `type`. -/
structure JsFile where
  name : String
  mime : String
deriving DecidableEq, Repr

/-- The joined product snapshot on a cart row (`products (*)` in the cart
query): the fields the checkout reads. -/
structure Product where
  name : String
  price : ℚ
deriving DecidableEq, Repr

/-- A `cart_items` row as fetched by the checkout query, with its joined
(possibly missing) product snapshot. -/
structure CartItem where
  id : Nat
  user_id : String
  product_id : String
  quantity : Nat
  products : Option Product
deriving DecidableEq, Repr

/-- A `profiles` row as the checkout reads it. -/
structure Profile where
  name : String
  phone : String
  address : String
deriving DecidableEq, Repr

/-! ## §4.1 Media-array parser (C1)

`BlogsManagement.tsx` lines 65–79 and `Blog.tsx` lines 66–76 both run:

```
let media = [];
try {
  if (Array.isArray(b.media)) media = b.media;
  else if (typeof b.media === "string") media = JSON.parse(b.media);
} catch { media = []; }
```

The database cell is one of: an already-structured array, a string, or
anything else (`null`, a number, an object, …). `JSON.parse` belongs to
the JS runtime, not to this repository, so it enters as a parameter
`dec : String → Option (List MediaItem)`; `none` is a thrown parse
error, caught by the `catch` arm. -/

/-- The shapes a `blogs.media` database cell can take, as the source
discriminates them (`Array.isArray`, then `typeof === "string"`, else
anything). -/
inductive MediaCell
  | arr (items : List MediaItem)
  | str (s : String)
  | other
deriving DecidableEq, Repr

/-- The safe media parser shared by the admin query and the public blog
page: structured pass-through, else decode, any failure yields `[]`.
Returning a plain `List MediaItem` (not an `Except`) is the formal
content of "never raises". -/
def parseBlogMedia (dec : String → Option (List MediaItem)) :
    MediaCell → List MediaItem
  | MediaCell.arr items => items
  | MediaCell.str s =>
    match dec s with
    | some items => items
    | none => []
  | MediaCell.other => []

/-! ## §4.2 Media classification (C7) and sequential upload (C6)

`uploadFiles` in `BlogsManagement.tsx` lines 87–113. -/

/-- MIME classification from `uploadFiles`:

```
let type = "image";
if (mime.startsWith("video/")) type = "video";
else if (mime.startsWith("audio/")) type = "audio";
```
-/
def classifyMime (mime : String) : MediaType :=
  if jsStartsWith mime "video/" then MediaType.video
  else if jsStartsWith mime "audio/" then MediaType.audio
  else MediaType.image

/-- One pass of the `for (const file of files)` loop in `uploadFiles`,
with the object store abstracted as `upload : JsFile → Except E String`
(an `Except.error` is the store's `uploadError`, re-thrown verbatim by
`if (uploadError) throw uploadError`; an `Except.ok url` is the public
URL of the stored object). The second component records which files were
actually handed to the store, in order — the loop stops at the first
failure, so nothing after it is attempted. -/
def uploadFilesRun {E : Type} (upload : JsFile → Except E String) :
    List JsFile → Except E (List MediaItem) × List JsFile
  | [] => (Except.ok [], [])
  | f :: fs =>
    match upload f with
    | Except.error e => (Except.error e, [f])
    | Except.ok url =>
      let rest := uploadFilesRun upload fs
      (match rest.1 with
       | Except.error e => Except.error e
       | Except.ok items =>
         Except.ok ({ type := classifyMime f.mime, url := url } :: items),
       f :: rest.2)

/-! ## §4.2 Client-side image cap (C2)

`handleFileChange` in `BlogsManagement.tsx` lines 194–225. -/

/-- `file.type.startsWith("image/")`. -/
def isImageFile (f : JsFile) : Bool :=
  jsStartsWith f.mime "image/"

/-- Saved media items of type image plus staged image files — the
`currentImageCount` of `handleFileChange`. -/
def imageCount (existingMedia : List MediaItem) (newFiles : List JsFile) : Nat :=
  (existingMedia.filter (fun m => m.type = MediaType.image)).length +
    (newFiles.filter isImageFile).length

/-- The `for (const file of files)` loop of `handleFileChange`: images are
pushed onto `allowed` only while
`currentImageCount + allowed.filter(isImage).length < 4`, otherwise
counted as rejected; non-image files are always pushed. -/
def selectFiles (currentImageCount : Nat) (allowed : List JsFile)
    (rejected : Nat) : List JsFile → List JsFile × Nat
  | [] => (allowed, rejected)
  | f :: fs =>
    if isImageFile f then
      if currentImageCount + (allowed.filter isImageFile).length < 4 then
        selectFiles currentImageCount (allowed ++ [f]) rejected fs
      else
        selectFiles currentImageCount allowed (rejected + 1) fs
    else
      selectFiles currentImageCount (allowed ++ [f]) rejected fs

/-- Outcome of one file-selection event: the staged file list after
`setNewFiles(prev => [...prev, ...allowedFiles])`, the number of rejected
images, and how many toasts were raised (the single
`if (rejectedImages > 0) toast.error(...)`). -/
structure FileChangeResult where
  newFiles : List JsFile
  rejectedImages : Nat
  toasts : Nat
deriving DecidableEq, Repr

/-- `handleFileChange`, for one change event carrying `files`. -/
def handleFileChange (existingMedia : List MediaItem)
    (newFiles : List JsFile) (files : List JsFile) : FileChangeResult :=
  if files.isEmpty then
    { newFiles := newFiles, rejectedImages := 0, toasts := 0 }
  else
    let currentImageCount := imageCount existingMedia newFiles
    let sel := selectFiles currentImageCount [] 0 files
    { newFiles := newFiles ++ sel.1
      rejectedImages := sel.2
      toasts := if 0 < sel.2 then 1 else 0 }

/-! ## §4.3 Checkout total, order writes, message composition

The checkout component in `src/ayurcart-nexus/src/pages/Blog.tsx`. -/

/-- `item.products?.price`, with a missing snapshot read as the falsy
`undefined`, which the surrounding `|| 0` sends to `0`. -/
def optPrice : Option Product → ℚ
  | some p => p.price
  | none => 0

/-- `item.products?.name`, with a missing snapshot read as the falsy
`undefined`, which the surrounding `|| ...` treats like `""`. -/
def optName : Option Product → String
  | some p => p.name
  | none => ""

/-- The checkout total:

```
cartItems.reduce((sum, item) => sum + (item.products?.price || 0) * item.quantity, 0)
```
-/
def checkoutTotal (cartItems : List CartItem) : ℚ :=
  cartItems.foldl
    (fun sum item => sum + jsOrNum (optPrice item.products) 0 * (item.quantity : ℚ))
    0

/-- `total.toFixed(2)`: the total rendered with exactly two decimals.
Modelled for the nonnegative exact rationals produced here: the amount in
cents rounds half-up, then prints as `whole.fraction` with a two-digit
fraction. -/
def toFixed2 (q : ℚ) : String :=
  let c : Int := (200 * q.num + (q.den : Int)) / (2 * (q.den : Int))
  let w : Int := c / 100
  let f : Int := c % 100
  toString w ++ "." ++ (if f < 10 then "0" else "") ++ toString f

/-- An `orders` insert row (`user_id`, `total_amount`, `payment_status`,
`delivery_status`), with the database-assigned `id` made explicit. -/
structure OrderRow where
  id : Nat
  user_id : String
  total_amount : ℚ
  payment_status : String
  delivery_status : String
deriving DecidableEq, Repr

/-- An `order_items` insert row. -/
structure OrderItemRow where
  order_id : Nat
  product_id : String
  product_name : String
  quantity : Nat
  price : ℚ
deriving DecidableEq, Repr

/-- The remote tables the checkout writes touch. -/
structure RemoteDB where
  orders : List OrderRow
  order_items : List OrderItemRow
  cart_items : List CartItem
deriving DecidableEq, Repr

/-- The `orderItems` mapping of `createOrderMutation.mutationFn`:

```
cartItems.map(item => ({ order_id: order.id, product_id: item.product_id,
  product_name: item.products?.name || "", quantity: item.quantity,
  price: item.products?.price || 0 }))
```
-/
def mkOrderItems (orderId : Nat) (cartItems : List CartItem) : List OrderItemRow :=
  cartItems.map (fun item =>
    { order_id := orderId
      product_id := item.product_id
      product_name := jsOrString (optName item.products) ""
      quantity := item.quantity
      price := jsOrNum (optPrice item.products) 0 })

/-- `createOrderMutation.mutationFn`: three independent remote calls in
order — insert the order, insert its items, delete the user's cart rows —
each guarded only by `if (error) throw error`. Failure injection is
explicit: `failOrder`, `failItems`, `failClear` make the corresponding
remote call fail (a failing call has no effect on the store). The result
is the store state actually reached plus the thrown/returned outcome;
there is no rollback step anywhere in the source, so earlier writes stay.
The database-assigned order id is modelled as the next fresh index. -/
def runCheckout (db : RemoteDB) (userId : String) (cartItems : List CartItem)
    (failOrder failItems failClear : Bool) : RemoteDB × Except Unit ℚ :=
  let total := checkoutTotal cartItems
  if failOrder then (db, Except.error ()) else
  let orderId := db.orders.length
  let db1 : RemoteDB :=
    { db with orders := db.orders ++
        [{ id := orderId
           user_id := userId
           total_amount := total
           payment_status := "completed"
           delivery_status := "processing" }] }
  if failItems then (db1, Except.error ()) else
  let db2 : RemoteDB :=
    { db1 with order_items := db1.order_items ++ mkOrderItems orderId cartItems }
  if failClear then (db2, Except.error ()) else
  let db3 : RemoteDB :=
    { db2 with cart_items := db2.cart_items.filter (fun r => r.user_id != userId) }
  (db3, Except.ok total)

/-- One `*Order Items*` line of the order message:
`- $\x7bitem.products?.name || "Item"\x7d (x$\x7bitem.quantity || 1\x7d)`. -/
def itemLine (item : CartItem) : String :=
  "- " ++ jsOrString (optName item.products) "Item" ++
    " (x" ++ toString (jsOrNat item.quantity 1) ++ ")"

/-- The plain-text order message template of
`createOrderMutation.onSuccess`. -/
def composeOrderMessage (profile : Profile) (cartItems : List CartItem)
    (total : ℚ) : String :=
  "🛒 *New Order Received*\n\n" ++
  "*Customer Details*\n" ++
  "Name: " ++ jsOrString profile.name "N/A" ++ "\n" ++
  "Phone: " ++ jsOrString profile.phone "N/A" ++ "\n" ++
  "Address: " ++ jsOrString profile.address "N/A" ++ "\n\n" ++
  "*Order Items*\n" ++
  jsJoin "\n" (cartItems.map itemLine) ++
  "\n\n*Total Amount:* " ++ "$" ++ toFixed2 total ++ "\n\n" ++
  "Please confirm the order."

/-- `const ADMIN_WHATSAPP = "94741167143"`. -/
def ADMIN_WHATSAPP : String := "94741167143"

/-- The characters `encodeURIComponent` leaves unescaped:
`A–Z a–z 0–9 - _ . ! ~ * ( )` and the apostrophe (code point 39). -/
def isUriUnreserved (c : Char) : Bool :=
  c.isAlpha || c.isDigit || c = '-' || c = '_' || c = '.' || c = '!' ||
    c = '~' || c = '*' || c.toNat = 39 || c = '(' || c = ')'

/-- UTF-8 byte sequence of a Unicode scalar value. -/
def utf8Bytes (n : Nat) : List Nat :=
  if n < 128 then [n]
  else if n < 2048 then [192 + n / 64, 128 + n % 64]
  else if n < 65536 then [224 + n / 4096, 128 + n / 64 % 64, 128 + n % 64]
  else [240 + n / 262144, 128 + n / 4096 % 64, 128 + n / 64 % 64, 128 + n % 64]

/-- Uppercase hexadecimal digit. -/
def hexDigit (n : Nat) : Char :=
  if n < 10 then Char.ofNat (48 + n) else Char.ofNat (55 + n)

/-- `%XY` escape of one byte. -/
def pctEncodeByte (b : Nat) : List Char :=
  ['%', hexDigit (b / 16), hexDigit (b % 16)]

/-- `encodeURIComponent`: unreserved characters pass through, every other
character is replaced by the `%XY` escapes of its UTF-8 bytes. -/
def encodeURIComponent (s : String) : String :=
  String.mk (List.flatten (s.data.map (fun c =>
    if isUriUnreserved c then [c]
    else List.flatten ((utf8Bytes c.toNat).map pctEncodeByte))))

/-- Numeric value of a hexadecimal digit character. -/
def hexVal (c : Char) : Option Nat :=
  if 48 ≤ c.toNat ∧ c.toNat ≤ 57 then some (c.toNat - 48)
  else if 65 ≤ c.toNat ∧ c.toNat ≤ 70 then some (c.toNat - 55)
  else if 97 ≤ c.toNat ∧ c.toNat ≤ 102 then some (c.toNat - 87)
  else none

/-- Reads a percent-encoded character sequence back into the byte values
it denotes (`%XY` escapes become the byte `XY`, everything else stands
for its own code point). Used to certify that produced URLs are valid
percent-encodings. -/
def pctBytes : List Char → Option (List Nat)
  | [] => some []
  | c :: cs =>
    if c = '%' then
      match cs with
      | h :: l :: rest =>
        match hexVal h, hexVal l with
        | some hv, some lv => (pctBytes rest).map (fun bs => (16 * hv + lv) :: bs)
        | _, _ => none
      | _ => none
    else (pctBytes cs).map (fun bs => c.toNat :: bs)

/-- Decodes a UTF-8 byte sequence back into characters (enough of a
decoder to invert `utf8Bytes`). -/
def utf8Decode : List Nat → Option (List Char)
  | [] => some []
  | b :: bs =>
    if b < 128 then (utf8Decode bs).map (fun cs => Char.ofNat b :: cs)
    else if b < 192 then none
    else if b < 224 then
      match bs with
      | b1 :: rest =>
        if 128 ≤ b1 ∧ b1 < 192 then
          (utf8Decode rest).map (fun cs =>
            Char.ofNat ((b - 192) * 64 + (b1 - 128)) :: cs)
        else none
      | _ => none
    else if b < 240 then
      match bs with
      | b1 :: b2 :: rest =>
        if (128 ≤ b1 ∧ b1 < 192) ∧ (128 ≤ b2 ∧ b2 < 192) then
          (utf8Decode rest).map (fun cs =>
            Char.ofNat ((b - 224) * 4096 + (b1 - 128) * 64 + (b2 - 128)) :: cs)
        else none
      | _ => none
    else
      match bs with
      | b1 :: b2 :: b3 :: rest =>
        if (128 ≤ b1 ∧ b1 < 192) ∧ (128 ≤ b2 ∧ b2 < 192) ∧ (128 ≤ b3 ∧ b3 < 192) then
          (utf8Decode rest).map (fun cs =>
            Char.ofNat ((b - 240) * 262144 + (b1 - 128) * 4096 +
              (b2 - 128) * 64 + (b3 - 128)) :: cs)
        else none
      | _ => none

/-- Full inverse reading of a percent-encoded string: percent-unescape to
bytes, then UTF-8 decode. -/
def percentDecode (s : String) : Option String :=
  (pctBytes s.data).bind (fun bs => (utf8Decode bs).map String.mk)

/-- The deep-link URL built in `onSuccess`:
`https://wa.me/$\x7bADMIN_WHATSAPP\x7d?text=$\x7bencodeURIComponent(message)\x7d`. -/
def waUrl (message : String) : String :=
  "https://wa.me/" ++ ADMIN_WHATSAPP ++ "?text=" ++ encodeURIComponent message

/-! ## §4.4 Blog payload derivation (C9) and the public listing query (C8) -/

/-- The insert/update payload shape shared by `createBlogMutation` and
`updateBlogMutation` (the create payload also carries `author_id`, which
none of the derivation rules touch). -/
structure BlogPayload where
  title : String
  content : String
  excerpt : String
  media : List MediaItem
  is_published : Bool
deriving DecidableEq, Repr

/-- The payload built inside `createBlogMutation.mutationFn`:

```
const excerpt = content.length > 150 ? content.slice(0, 150) + "..." : content;
title: title.trim() || content.slice(0, 60) || "Untitled", ...
```
-/
def createBlogPayload (title content : String) (uploadedMedia : List MediaItem)
    (publish : Bool) : BlogPayload :=
  let excerpt := if 150 < jsLength content then jsSlice content 150 ++ "..." else content
  { title := jsOrString (jsOrString (jsTrim title) (jsSlice content 60)) "Untitled"
    content := content
    excerpt := excerpt
    media := uploadedMedia
    is_published := publish }

/-- The payload built inside `updateBlogMutation.mutationFn`; identical
derivation, with `media = [...existingMedia, ...uploadedMedia]`. -/
def updateBlogPayload (title content : String)
    (existingMedia uploadedMedia : List MediaItem) (publish : Bool) : BlogPayload :=
  let finalMedia := existingMedia ++ uploadedMedia
  let excerpt := if 150 < jsLength content then jsSlice content 150 ++ "..." else content
  { title := jsOrString (jsOrString (jsTrim title) (jsSlice content 60)) "Untitled"
    content := content
    excerpt := excerpt
    media := finalMedia
    is_published := publish }

/-- A `blogs` table row as the public listing query sees it. -/
structure BlogRow where
  id : Nat
  title : String
  content : String
  excerpt : Option String
  media : MediaCell
  is_published : Bool
  created_at : Nat
deriving DecidableEq, Repr

/-- Insertion step of the descending `created_at` ordering. -/
def insertByCreatedDesc (r : BlogRow) : List BlogRow → List BlogRow
  | [] => [r]
  | x :: xs =>
    if x.created_at ≤ r.created_at then r :: x :: xs
    else x :: insertByCreatedDesc r xs

/-- `order("created_at", { ascending: false })`: the rows sorted by
`created_at`, newest first. -/
def orderByCreatedDesc (rows : List BlogRow) : List BlogRow :=
  rows.foldr insertByCreatedDesc []

/-- The public blog listing query of `Blog.tsx`:
`from("blogs").select("*").eq("is_published", true).order("created_at",
{ ascending: false })` — the server keeps exactly the rows passing the
equality filter and returns them newest first. -/
def publicBlogsQuery (rows : List BlogRow) : List BlogRow :=
  orderByCreatedDesc (rows.filter (fun b => b.is_published == true))

/-- Substring containment of JavaScript strings, at the character level. -/
def IsSubstr (needle hay : String) : Prop :=
  needle.data <:+: hay.data

/-- A concrete stand-in for the runtime's `JSON.parse`, for witnessing. -/
def decStub : String → Option (List MediaItem) := fun s =>
  if s = "good" then some [{ type := MediaType.image, url := "u" }] else none

/-! ## Helper lemmas -/

/-- Every string is a substring of itself. -/
theorem isSubstr_refl (n : String) : IsSubstr n n :=
  ⟨[], [], by simp⟩

/-- Substring containment survives appending on the right. -/
theorem isSubstr_appendl {n a : String} (b : String) (h : IsSubstr n a) :
    IsSubstr n (a ++ b) := by
  obtain ⟨s, t, hst⟩ := h
  exact ⟨s, t ++ b.data, by rw [String.data_append, ← hst]; simp⟩

/-- Substring containment survives appending on the left. -/
theorem isSubstr_appendr {n b : String} (a : String) (h : IsSubstr n b) :
    IsSubstr n (a ++ b) := by
  obtain ⟨s, t, hst⟩ := h
  exact ⟨a.data ++ s, t, by rw [String.data_append, ← hst]; simp⟩

/-- A two-piece needle sitting across the last two appends. -/
theorem isSubstr_append_append (x y a : String) :
    IsSubstr (x ++ y) ((a ++ x) ++ y) :=
  ⟨a.data, [], by simp [String.data_append]⟩

/-- Substring containment is transitive. -/
theorem isSubstr_trans {n m hay : String} (h1 : IsSubstr n m)
    (h2 : IsSubstr m hay) : IsSubstr n hay :=
  List.IsInfix.trans h1 h2

/-- Every joined element is a substring of the join. -/
theorem isSubstr_jsJoin (sep : String) (l : List String) (x : String)
    (h : x ∈ l) : IsSubstr x (jsJoin sep l) := by
  induction l with
  | nil => cases h
  | cons y ys ih =>
    cases ys with
    | nil =>
      rw [List.mem_singleton] at h
      subst h
      exact isSubstr_refl x
    | cons z zs =>
      rcases List.mem_cons.mp h with hx | hx
      · subst hx
        exact isSubstr_appendl _ (isSubstr_appendl _ (isSubstr_refl x))
      · exact isSubstr_appendr _ (ih hx)

/-- No MIME string starts with both `audio/` and `video/`. -/
theorem jsStartsWith_audio_not_video (s : String)
    (h : jsStartsWith s "audio/" = true) : jsStartsWith s "video/" = false := by
  have ha : "audio/".data = ['a', 'u', 'd', 'i', 'o', '/'] := by decide
  have hv : "video/".data = ['v', 'i', 'd', 'e', 'o', '/'] := by decide
  rw [jsStartsWith, ha] at h
  rw [jsStartsWith, hv]
  cases hs : s.data with
  | nil => rw [hs] at h; simp [List.isPrefixOf] at h
  | cons c cs =>
    rw [hs] at h
    simp only [List.isPrefixOf, Bool.and_eq_true, beq_iff_eq] at h
    obtain ⟨hc, -⟩ := h
    subst hc
    have hva : ('v' == 'a') = false := by decide
    simp [List.isPrefixOf, hva]

/-- Loop invariant of `handleFileChange`: the selection loop never lets
the combined image count pass four. -/
theorem selectFiles_cap (c : Nat) (fs : List JsFile) :
    ∀ allowed rejected, c + (allowed.filter isImageFile).length ≤ 4 →
      c + (((selectFiles c allowed rejected fs).1).filter isImageFile).length ≤ 4 := by
  induction fs with
  | nil => intro a r h; simpa [selectFiles] using h
  | cons f fs ih =>
    intro a r h
    simp only [selectFiles]
    by_cases hf : isImageFile f = true
    · rw [if_pos hf]
      by_cases hlt : c + (a.filter isImageFile).length < 4
      · rw [if_pos hlt]
        refine ih (a ++ [f]) r ?_
        simp only [List.filter_append, List.length_append]
        simp [List.filter, hf]
        omega
      · rw [if_neg hlt]
        exact ih a (r + 1) h
    · rw [if_neg hf]
      refine ih (a ++ [f]) r ?_
      simp only [List.filter_append, List.length_append]
      simp [List.filter, hf]
      omega

/-- The selection loop passes every non-image file through, in order. -/
theorem selectFiles_nonimage (c : Nat) (fs : List JsFile) :
    ∀ allowed rejected,
      ((selectFiles c allowed rejected fs).1).filter (fun f => !isImageFile f) =
        allowed.filter (fun f => !isImageFile f) ++
          fs.filter (fun f => !isImageFile f) := by
  induction fs with
  | nil => intro a r; simp [selectFiles]
  | cons f fs ih =>
    intro a r
    simp only [selectFiles]
    by_cases hf : isImageFile f = true
    · rw [if_pos hf]
      by_cases hlt : c + (a.filter isImageFile).length < 4
      · rw [if_pos hlt, ih (a ++ [f]) r]
        simp [List.filter_append, List.filter, hf]
      · rw [if_neg hlt, ih a (r + 1)]
        simp [List.filter, hf]
    · rw [if_neg hf, ih (a ++ [f]) r]
      simp only [Bool.not_eq_true] at hf
      simp [List.filter_append, List.filter, hf]

/-- The rejected-image counter of the selection loop is exactly the
excess over the remaining capacity. -/
theorem selectFiles_rejected (c : Nat) (fs : List JsFile) :
    ∀ allowed rejected,
      (selectFiles c allowed rejected fs).2 =
        rejected + ((fs.filter isImageFile).length -
          (4 - (c + (allowed.filter isImageFile).length))) := by
  induction fs with
  | nil => intro a r; simp [selectFiles]
  | cons f fs ih =>
    intro a r
    simp only [selectFiles]
    by_cases hf : isImageFile f = true
    · rw [if_pos hf]
      by_cases hlt : c + (a.filter isImageFile).length < 4
      · rw [if_pos hlt, ih (a ++ [f]) r]
        simp only [List.filter_append, List.length_append]
        simp [List.filter, hf]
        omega
      · rw [if_neg hlt, ih a (r + 1)]
        simp [List.filter, hf]
        omega
    · rw [if_neg hf, ih (a ++ [f]) r]
      simp only [Bool.not_eq_true] at hf
      simp [List.filter_append, List.filter, hf]

/-- Conservation: every selected image is either kept or rejected. -/
theorem selectFiles_conserve (c : Nat) (fs : List JsFile) :
    ∀ allowed rejected,
      (((selectFiles c allowed rejected fs).1).filter isImageFile).length +
          (selectFiles c allowed rejected fs).2 =
        (allowed.filter isImageFile).length + rejected +
          (fs.filter isImageFile).length := by
  induction fs with
  | nil => intro a r; simp [selectFiles]
  | cons f fs ih =>
    intro a r
    simp only [selectFiles]
    by_cases hf : isImageFile f = true
    · by_cases hlt : c + (a.filter isImageFile).length < 4
      · rw [if_pos hf, if_pos hlt, ih (a ++ [f]) r]
        simp [List.filter_append, List.filter, hf]
        omega
      · rw [if_pos hf, if_neg hlt, ih a (r + 1)]
        simp [List.filter, hf]
        omega
    · rw [if_neg hf, ih (a ++ [f]) r]
      simp only [Bool.not_eq_true] at hf
      simp [List.filter_append, List.filter, hf]

/-! ## Claim theorems -/

/-- Claim C1: the media-array parser passes a structured list through
unchanged, decodes a JSON-string cell to the decoded list, and yields the
empty list on every other or malformed input — and, being a total
function into `List MediaItem`, never propagates a parse error. -/
theorem parseBlogMedia_contract (dec : String → Option (List MediaItem)) :
    (∀ items, parseBlogMedia dec (MediaCell.arr items) = items) ∧
    (∀ s items, dec s = some items →
      parseBlogMedia dec (MediaCell.str s) = items) ∧
    (∀ s, dec s = none → parseBlogMedia dec (MediaCell.str s) = []) ∧
    parseBlogMedia dec MediaCell.other = [] := by
  refine ⟨fun items => rfl, fun s items h => ?_, fun s h => ?_, rfl⟩ <;>
    simp [parseBlogMedia, h]

/-- Concrete instantiation of `parseBlogMedia_contract`. -/
theorem parseBlogMedia_contract_witness :
    parseBlogMedia decStub (MediaCell.str "good") =
        [{ type := MediaType.image, url := "u" }] ∧
      parseBlogMedia decStub (MediaCell.str "oops") = [] :=
  ⟨(parseBlogMedia_contract decStub).2.1 "good" _ (by decide),
   (parseBlogMedia_contract decStub).2.2.1 "oops" (by decide)⟩

/-- Appending staged files adds their image count. -/
theorem imageCount_append (em : List MediaItem) (nf xs : List JsFile) :
    imageCount em (nf ++ xs) = imageCount em nf + (xs.filter isImageFile).length := by
  simp [imageCount, List.filter_append]
  omega

/-- Claim C2: one file-selection event never pushes the combined image
count (saved image media + staged image files + newly accepted image
files) past four; excess images are dropped, with one aggregate notice
exactly when something was rejected; non-image files always pass; and
with 3 saved images and 2 newly selected images, exactly 1 is accepted
and 1 rejected with a single notice. -/
theorem handleFileChange_image_cap (em : List MediaItem) (nf files : List JsFile) :
    (imageCount em nf ≤ 4 →
      imageCount em (handleFileChange em nf files).newFiles ≤ 4) ∧
    ((handleFileChange em nf files).toasts =
      if 0 < (handleFileChange em nf files).rejectedImages then 1 else 0) ∧
    ((handleFileChange em nf files).newFiles.filter (fun f => !isImageFile f) =
      nf.filter (fun f => !isImageFile f) ++
        files.filter (fun f => !isImageFile f)) ∧
    ((handleFileChange em nf files).rejectedImages =
      (files.filter isImageFile).length - (4 - imageCount em nf)) ∧
    ((nf.filter isImageFile).length + (files.filter isImageFile).length =
      ((handleFileChange em nf files).newFiles.filter isImageFile).length +
        (handleFileChange em nf files).rejectedImages) ∧
    handleFileChange
        [{ type := MediaType.image, url := "u1" },
         { type := MediaType.image, url := "u2" },
         { type := MediaType.image, url := "u3" }]
        []
        [{ name := "a.png", mime := "image/png" },
         { name := "b.png", mime := "image/png" }] =
      { newFiles := [{ name := "a.png", mime := "image/png" }]
        rejectedImages := 1
        toasts := 1 } := by
  by_cases hemp : files.isEmpty = true
  · have hfe : files = [] := List.isEmpty_iff.mp hemp
    subst hfe
    refine ⟨fun h => by simpa [handleFileChange] using h, ?_, ?_, ?_, ?_, by decide⟩ <;>
      simp [handleFileChange]
  · have hcap := selectFiles_cap (imageCount em nf) files [] 0
    have hni := selectFiles_nonimage (imageCount em nf) files [] 0
    have hrej := selectFiles_rejected (imageCount em nf) files [] 0
    have hcons := selectFiles_conserve (imageCount em nf) files [] 0
    simp only [List.filter_nil, List.length_nil, Nat.add_zero, Nat.zero_add,
      Nat.sub_zero, List.nil_append] at hcap hni hrej hcons
    refine ⟨fun h => ?_, ?_, ?_, ?_, ?_, by decide⟩
    · simp only [handleFileChange, if_neg hemp]
      rw [imageCount_append]
      have := hcap (by simpa using h)
      omega
    · simp only [handleFileChange, if_neg hemp]
    · simp only [handleFileChange, if_neg hemp]
      simp [List.filter_append, hni]
    · simp only [handleFileChange, if_neg hemp]
      simpa using hrej
    · simp only [handleFileChange, if_neg hemp]
      simp [List.filter_append]
      omega

/-- Concrete instantiation of `handleFileChange_image_cap`, discharging
its cap hypothesis at the spec's 3-existing-images example. -/
theorem handleFileChange_image_cap_witness :
    imageCount
        [{ type := MediaType.image, url := "u1" },
         { type := MediaType.image, url := "u2" },
         { type := MediaType.image, url := "u3" }] [] ≤ 4 ∧
      imageCount
        [{ type := MediaType.image, url := "u1" },
         { type := MediaType.image, url := "u2" },
         { type := MediaType.image, url := "u3" }]
        (handleFileChange
          [{ type := MediaType.image, url := "u1" },
           { type := MediaType.image, url := "u2" },
           { type := MediaType.image, url := "u3" }]
          []
          [{ name := "a.png", mime := "image/png" },
           { name := "b.png", mime := "image/png" }]).newFiles ≤ 4 :=
  ⟨by decide,
   (handleFileChange_image_cap
      [{ type := MediaType.image, url := "u1" },
       { type := MediaType.image, url := "u2" },
       { type := MediaType.image, url := "u3" }]
      []
      [{ name := "a.png", mime := "image/png" },
       { name := "b.png", mime := "image/png" }]).1 (by decide)⟩

/-- Folding `+` over mapped contributions is their sum. -/
theorem foldl_add_contrib (f : CartItem → ℚ) (l : List CartItem) :
    ∀ init : ℚ, l.foldl (fun s i => s + f i) init = init + (l.map f).sum := by
  induction l with
  | nil => intro i; simp
  | cons x xs ih =>
    intro i
    simp only [List.foldl_cons, List.map_cons, List.sum_cons, ih]
    ring

/-- Claim C3: the checkout total is the deterministic pure sum of unit
price times quantity over the cart lines, and the example cart of
10 × 2 plus 5 × 1 totals 25, rendered as `25.00`. -/
theorem checkoutTotal_pure_sum :
    (∀ items : List CartItem, checkoutTotal items =
      (items.map (fun item =>
        jsOrNum (optPrice item.products) 0 * (item.quantity : ℚ))).sum) ∧
    checkoutTotal
      [{ id := 1, user_id := "u", product_id := "p1", quantity := 2,
         products := some { name := "P1", price := 10 } },
       { id := 2, user_id := "u", product_id := "p2", quantity := 1,
         products := some { name := "P2", price := 5 } }] = 25 ∧
    toFixed2 (checkoutTotal
      [{ id := 1, user_id := "u", product_id := "p1", quantity := 2,
         products := some { name := "P1", price := 10 } },
       { id := 2, user_id := "u", product_id := "p2", quantity := 1,
         products := some { name := "P2", price := 5 } }]) = "25.00" := by
  have hsum : ∀ items : List CartItem, checkoutTotal items =
      (items.map (fun item =>
        jsOrNum (optPrice item.products) 0 * (item.quantity : ℚ))).sum := by
    intro items
    simpa [checkoutTotal] using foldl_add_contrib _ items 0
  have hex : checkoutTotal
      [{ id := 1, user_id := "u", product_id := "p1", quantity := 2,
         products := some { name := "P1", price := 10 } },
       { id := 2, user_id := "u", product_id := "p2", quantity := 1,
         products := some { name := "P2", price := 5 } }] = 25 := by
    norm_num [checkoutTotal, jsOrNum, optPrice]
  refine ⟨hsum, hex, ?_⟩
  rw [hex]
  decide

/-- Claim C10: a cart line with a missing product snapshot contributes 0
to the total, and its order item is still written — in place, with
price 0 and product name the empty string; the computation is total and
never fails on the missing snapshot. -/
theorem missing_product_snapshot_safe (item : CartItem) (l1 l2 : List CartItem)
    (oid : Nat) (h : item.products = none) :
    jsOrNum (optPrice item.products) 0 * (item.quantity : ℚ) = 0 ∧
    checkoutTotal (l1 ++ item :: l2) = checkoutTotal (l1 ++ l2) ∧
    mkOrderItems oid (l1 ++ item :: l2) =
      mkOrderItems oid l1 ++
        { order_id := oid
          product_id := item.product_id
          product_name := ""
          quantity := item.quantity
          price := 0 } :: mkOrderItems oid l2 ∧
    (mkOrderItems oid (l1 ++ item :: l2)).length = (l1 ++ item :: l2).length := by
  refine ⟨by simp [h, optPrice, jsOrNum], ?_, ?_, by simp [mkOrderItems]⟩
  · rw [checkoutTotal, checkoutTotal, foldl_add_contrib, foldl_add_contrib]
    simp [h, optPrice, jsOrNum]
  · simp [mkOrderItems, h, optPrice, optName, jsOrNum, jsOrString]

/-- Concrete instantiation of `missing_product_snapshot_safe` at a cart
line whose join produced no product row. -/
theorem missing_product_snapshot_safe_witness :
    checkoutTotal
        [{ id := 1, user_id := "u", product_id := "p1", quantity := 2,
           products := some { name := "P1", price := 10 } },
         { id := 9, user_id := "u", product_id := "gone", quantity := 3,
           products := none }] =
      checkoutTotal
        [{ id := 1, user_id := "u", product_id := "p1", quantity := 2,
           products := some { name := "P1", price := 10 } }] ∧
      mkOrderItems 7
          [{ id := 1, user_id := "u", product_id := "p1", quantity := 2,
             products := some { name := "P1", price := 10 } },
           { id := 9, user_id := "u", product_id := "gone", quantity := 3,
             products := none }] =
        mkOrderItems 7
            [{ id := 1, user_id := "u", product_id := "p1", quantity := 2,
               products := some { name := "P1", price := 10 } }] ++
          [{ order_id := 7, product_id := "gone", product_name := "",
             quantity := 3, price := 0 }] :=
  ⟨(missing_product_snapshot_safe
      { id := 9, user_id := "u", product_id := "gone", quantity := 3,
        products := none }
      [{ id := 1, user_id := "u", product_id := "p1", quantity := 2,
         products := some { name := "P1", price := 10 } }]
      [] 7 rfl).2.1,
   (missing_product_snapshot_safe
      { id := 9, user_id := "u", product_id := "gone", quantity := 3,
        products := none }
      [{ id := 1, user_id := "u", product_id := "p1", quantity := 2,
         products := some { name := "P1", price := 10 } }]
      [] 7 rfl).2.2.1⟩

/-- Claim C5: the checkout write sequence is three independent remote
calls in order — order insert, items insert, cart clear — with no
transaction and no compensating rollback: whichever step fails, the
effects of the earlier steps remain. In particular a failure inserting
order items leaves the order row created and the cart untouched. -/
theorem checkout_no_rollback (db : RemoteDB) (uid : String) (cart : List CartItem) :
    (runCheckout db uid cart false false false =
      ({ orders := db.orders ++
            [{ id := db.orders.length, user_id := uid,
               total_amount := checkoutTotal cart,
               payment_status := "completed",
               delivery_status := "processing" }]
         order_items := db.order_items ++ mkOrderItems db.orders.length cart
         cart_items := db.cart_items.filter (fun r => r.user_id != uid) },
       Except.ok (checkoutTotal cart))) ∧
    (runCheckout db uid cart true false false = (db, Except.error ())) ∧
    (runCheckout db uid cart false true false =
      ({ db with orders := db.orders ++
            [{ id := db.orders.length, user_id := uid,
               total_amount := checkoutTotal cart,
               payment_status := "completed",
               delivery_status := "processing" }] },
       Except.error ())) ∧
    (runCheckout db uid cart false false true =
      ({ db with
         orders := db.orders ++
            [{ id := db.orders.length, user_id := uid,
               total_amount := checkoutTotal cart,
               payment_status := "completed",
               delivery_status := "processing" }]
         order_items := db.order_items ++ mkOrderItems db.orders.length cart },
       Except.error ())) :=
  ⟨rfl, rfl, rfl, rfl⟩

/-- Claim C6: media files are uploaded sequentially in selection order;
if every upload succeeds the result has one media item per input file in
order, and a failing upload re-throws the store's error verbatim and
stops the batch — files after the failing one are never handed to the
store. -/
theorem uploadFiles_sequential {E : Type} (upload : JsFile → Except E String) :
    (∀ (files : List JsFile) (url : JsFile → String),
      (∀ f, f ∈ files → upload f = Except.ok (url f)) →
      uploadFilesRun upload files =
        (Except.ok (files.map (fun f =>
          { type := classifyMime f.mime, url := url f })), files)) ∧
    (∀ (pre : List JsFile) (f : JsFile) (post : List JsFile) (e : E),
      (∀ g, g ∈ pre → ∃ u, upload g = Except.ok u) →
      upload f = Except.error e →
      uploadFilesRun upload (pre ++ f :: post) = (Except.error e, pre ++ [f])) := by
  constructor
  · intro files url h
    induction files with
    | nil => rfl
    | cons f fs ih =>
      have hf : upload f = Except.ok (url f) := h f (List.mem_cons_self f fs)
      have hrest := ih (fun g hg => h g (List.mem_cons_of_mem f hg))
      simp [uploadFilesRun, hf, hrest]
  · intro pre f post e hpre hf
    induction pre with
    | nil => simp [uploadFilesRun, hf]
    | cons g gs ih =>
      obtain ⟨u, hu⟩ := hpre g (List.mem_cons_self g gs)
      have hrest := ih (fun g' hg' => hpre g' (List.mem_cons_of_mem g hg'))
      simp [uploadFilesRun, hu, hrest]

/-- Concrete instantiation of `uploadFiles_sequential`: a two-file batch
whose second upload fails surfaces the store's error and never attempts
the third file. -/
theorem uploadFiles_sequential_witness :
    uploadFilesRun
        (fun f => if f.name = "bad" then Except.error "store down"
                  else Except.ok ("https://cdn/" ++ f.name))
        [{ name := "a.png", mime := "image/png" },
         { name := "bad", mime := "video/mp4" },
         { name := "c.mp3", mime := "audio/mp3" }] =
      (Except.error "store down",
       [{ name := "a.png", mime := "image/png" },
        { name := "bad", mime := "video/mp4" }]) ∧
      uploadFilesRun
        (fun f => if f.name = "bad" then Except.error "store down"
                  else Except.ok ("https://cdn/" ++ f.name))
        [{ name := "a.png", mime := "image/png" },
         { name := "v.mp4", mime := "video/mp4" }] =
      (Except.ok
        [{ type := MediaType.image, url := "https://cdn/a.png" },
         { type := MediaType.video, url := "https://cdn/v.mp4" }],
       [{ name := "a.png", mime := "image/png" },
        { name := "v.mp4", mime := "video/mp4" }]) :=
  ⟨(uploadFiles_sequential
      (fun f => if f.name = "bad" then Except.error "store down"
                else Except.ok ("https://cdn/" ++ f.name))).2
      [{ name := "a.png", mime := "image/png" }]
      { name := "bad", mime := "video/mp4" }
      [{ name := "c.mp3", mime := "audio/mp3" }]
      "store down"
      (by intro g hg; simp at hg; subst hg; exact ⟨"https://cdn/a.png", rfl⟩)
      rfl,
   by
    have := (uploadFiles_sequential
      (fun f => if f.name = "bad" then Except.error "store down"
                else Except.ok ("https://cdn/" ++ f.name))).1
      [{ name := "a.png", mime := "image/png" },
       { name := "v.mp4", mime := "video/mp4" }]
      (fun f => "https://cdn/" ++ f.name)
      (by intro f hf; fin_cases hf <;> rfl)
    simpa using this⟩

/-- Claim C7: media classification is a pure function of the declared
MIME type — `video/`-prefixed types are video, `audio/`-prefixed types
are audio, and everything else (including the empty string) is image. -/
theorem classifyMime_from_declared_mime (mime : String) :
    (jsStartsWith mime "video/" = true → classifyMime mime = MediaType.video) ∧
    (jsStartsWith mime "audio/" = true → classifyMime mime = MediaType.audio) ∧
    (jsStartsWith mime "video/" = false → jsStartsWith mime "audio/" = false →
      classifyMime mime = MediaType.image) ∧
    classifyMime "" = MediaType.image := by
  refine ⟨fun h => ?_, fun h => ?_, fun h1 h2 => ?_, by decide⟩
  · simp [classifyMime, h]
  · simp [classifyMime, h, jsStartsWith_audio_not_video mime h]
  · simp [classifyMime, h1, h2]

/-- Concrete instantiation of `classifyMime_from_declared_mime`. -/
theorem classifyMime_from_declared_mime_witness :
    classifyMime "video/mp4" = MediaType.video ∧
      classifyMime "audio/ogg" = MediaType.audio ∧
      classifyMime "application/pdf" = MediaType.image :=
  ⟨(classifyMime_from_declared_mime "video/mp4").1 (by decide),
   (classifyMime_from_declared_mime "audio/ogg").2.1 (by decide),
   (classifyMime_from_declared_mime "application/pdf").2.2.1 (by decide) (by decide)⟩

/-- Membership in the descending insertion is membership in the inserted
element or the old list. -/
theorem mem_insertByCreatedDesc (r x : BlogRow) (l : List BlogRow) :
    x ∈ insertByCreatedDesc r l ↔ x = r ∨ x ∈ l := by
  induction l with
  | nil => simp [insertByCreatedDesc]
  | cons y ys ih =>
    simp only [insertByCreatedDesc]
    by_cases hc : y.created_at ≤ r.created_at
    · rw [if_pos hc]
      simp
    · rw [if_neg hc]
      simp [ih]
      tauto

/-- Sorting by `created_at` descending neither adds nor removes rows. -/
theorem mem_orderByCreatedDesc (x : BlogRow) (rows : List BlogRow) :
    x ∈ orderByCreatedDesc rows ↔ x ∈ rows := by
  induction rows with
  | nil => simp [orderByCreatedDesc]
  | cons y ys ih =>
    simp only [orderByCreatedDesc, List.foldr_cons] at *
    rw [mem_insertByCreatedDesc]
    simp [ih, eq_comm]

/-- Claim C8: the public blog listing query filters on
`is_published = true` before ordering, so every row it returns is
published — unpublished drafts never appear. -/
theorem publicBlogsQuery_only_published (rows : List BlogRow) (b : BlogRow)
    (h : b ∈ publicBlogsQuery rows) : b.is_published = true := by
  rw [publicBlogsQuery, mem_orderByCreatedDesc] at h
  have := (List.mem_filter.mp h).2
  simpa using this

/-- Concrete instantiation of `publicBlogsQuery_only_published`: the
published row of a mixed two-row table is returned, and is published. -/
theorem publicBlogsQuery_only_published_witness :
    { id := 1, title := "t1", content := "c1", excerpt := none,
      media := MediaCell.other, is_published := true, created_at := 5 } ∈
        publicBlogsQuery
          [{ id := 1, title := "t1", content := "c1", excerpt := none,
             media := MediaCell.other, is_published := true, created_at := 5 },
           { id := 2, title := "t2", content := "c2", excerpt := none,
             media := MediaCell.other, is_published := false, created_at := 9 }] ∧
      BlogRow.is_published
        { id := 1, title := "t1", content := "c1", excerpt := none,
          media := MediaCell.other, is_published := true, created_at := 5 } = true :=
  ⟨by decide,
   publicBlogsQuery_only_published
     [{ id := 1, title := "t1", content := "c1", excerpt := none,
        media := MediaCell.other, is_published := true, created_at := 5 },
      { id := 2, title := "t2", content := "c2", excerpt := none,
        media := MediaCell.other, is_published := false, created_at := 9 }]
     { id := 1, title := "t1", content := "c1", excerpt := none,
       media := MediaCell.other, is_published := true, created_at := 5 }
     (by decide)⟩

/-- Claim C9: on both blog create and blog update the stored excerpt is
the first 150 characters of the content plus an ellipsis when the
content exceeds 150 characters and the content itself otherwise, and the
stored title is the trimmed entered title when non-empty, else the first
60 characters of the content, else the literal `Untitled`. -/
theorem blog_excerpt_title_rule (title content : String)
    (em um : List MediaItem) (publish : Bool) :
    ((createBlogPayload title content um publish).excerpt =
      if 150 < jsLength content then jsSlice content 150 ++ "..." else content) ∧
    ((updateBlogPayload title content em um publish).excerpt =
      if 150 < jsLength content then jsSlice content 150 ++ "..." else content) ∧
    ((createBlogPayload title content um publish).title =
      if jsTrim title ≠ "" then jsTrim title
      else if jsSlice content 60 ≠ "" then jsSlice content 60
      else "Untitled") ∧
    ((updateBlogPayload title content em um publish).title =
      if jsTrim title ≠ "" then jsTrim title
      else if jsSlice content 60 ≠ "" then jsSlice content 60
      else "Untitled") := by
  refine ⟨rfl, rfl, ?_, ?_⟩ <;>
  · show jsOrString (jsOrString (jsTrim title) (jsSlice content 60)) "Untitled" = _
    by_cases h1 : jsTrim title = ""
    · by_cases h2 : jsSlice content 60 = "" <;> simp [jsOrString, h1, h2]
    · simp [jsOrString, h1]

/-- Claim C4: the composed order message contains the profile's name,
phone and address, one line per cart item (the item's name and displayed
quantity), and the literal formatted total; the produced deep-link URL is
exactly the wa.me prefix plus the percent-encoding of that text. At the
spec's example — profile A/B/C, one line item X with quantity 2 — the
message is the expected literal text and percent-decoding the encoded
message gives the message back, so the URL embeds a valid
percent-encoding of it. -/
theorem order_message_and_url :
    (∀ (p : Profile) (items : List CartItem) (total : ℚ),
      IsSubstr (jsOrString p.name "N/A") (composeOrderMessage p items total) ∧
      IsSubstr (jsOrString p.phone "N/A") (composeOrderMessage p items total) ∧
      IsSubstr (jsOrString p.address "N/A") (composeOrderMessage p items total) ∧
      IsSubstr ("$" ++ toFixed2 total) (composeOrderMessage p items total) ∧
      waUrl (composeOrderMessage p items total) =
        "https://wa.me/94741167143?text=" ++
          encodeURIComponent (composeOrderMessage p items total)) ∧
    (∀ (p : Profile) (items : List CartItem) (total : ℚ),
      ∀ it ∈ items, IsSubstr (itemLine it) (composeOrderMessage p items total)) ∧
    composeOrderMessage { name := "A", phone := "B", address := "C" }
        [{ id := 1, user_id := "u", product_id := "px", quantity := 2,
           products := some { name := "X", price := 5 } }]
        (checkoutTotal
          [{ id := 1, user_id := "u", product_id := "px", quantity := 2,
             products := some { name := "X", price := 5 } }]) =
      "🛒 *New Order Received*\n\n*Customer Details*\nName: A\nPhone: B\nAddress: C\n\n*Order Items*\n- X (x2)\n\n*Total Amount:* $10.00\n\nPlease confirm the order." ∧
    percentDecode (encodeURIComponent (composeOrderMessage
        { name := "A", phone := "B", address := "C" }
        [{ id := 1, user_id := "u", product_id := "px", quantity := 2,
           products := some { name := "X", price := 5 } }]
        (checkoutTotal
          [{ id := 1, user_id := "u", product_id := "px", quantity := 2,
             products := some { name := "X", price := 5 } }]))) =
      some (composeOrderMessage
        { name := "A", phone := "B", address := "C" }
        [{ id := 1, user_id := "u", product_id := "px", quantity := 2,
           products := some { name := "X", price := 5 } }]
        (checkoutTotal
          [{ id := 1, user_id := "u", product_id := "px", quantity := 2,
             products := some { name := "X", price := 5 } }])) := by
  have htot : checkoutTotal
      [{ id := 1, user_id := "u", product_id := "px", quantity := 2,
         products := some { name := "X", price := 5 } }] = 10 := by
    norm_num [checkoutTotal, jsOrNum, optPrice]
  refine ⟨fun p items total => ⟨?_, ?_, ?_, ?_, rfl⟩,
    fun p items total it hit => ?_, ?_, ?_⟩
  · simp only [composeOrderMessage]
    iterate 14 apply isSubstr_appendl
    exact isSubstr_appendr _ (isSubstr_refl _)
  · simp only [composeOrderMessage]
    iterate 11 apply isSubstr_appendl
    exact isSubstr_appendr _ (isSubstr_refl _)
  · simp only [composeOrderMessage]
    iterate 8 apply isSubstr_appendl
    exact isSubstr_appendr _ (isSubstr_refl _)
  · simp only [composeOrderMessage]
    iterate 2 apply isSubstr_appendl
    exact isSubstr_append_append _ _ _
  · have hj : IsSubstr (jsJoin "\n" (items.map itemLine))
        (composeOrderMessage p items total) := by
      simp only [composeOrderMessage]
      iterate 5 apply isSubstr_appendl
      exact isSubstr_appendr _ (isSubstr_refl _)
    exact isSubstr_trans (isSubstr_jsJoin _ _ _ (List.mem_map_of_mem _ hit)) hj
  · rw [htot]
    set_option maxRecDepth 4000 in decide
  · rw [htot]
    set_option maxRecDepth 10000 in decide

/-- Concrete instantiation of `order_message_and_url`, discharging its
membership hypothesis at the one-item example cart. -/
theorem order_message_and_url_witness :
    ({ id := 1, user_id := "u", product_id := "px", quantity := 2,
       products := some { name := "X", price := 5 } } : CartItem) ∈
        [({ id := 1, user_id := "u", product_id := "px", quantity := 2,
            products := some { name := "X", price := 5 } } : CartItem)] ∧
      IsSubstr
        (itemLine { id := 1, user_id := "u", product_id := "px", quantity := 2,
                    products := some { name := "X", price := 5 } })
        (composeOrderMessage { name := "A", phone := "B", address := "C" }
          [{ id := 1, user_id := "u", product_id := "px", quantity := 2,
             products := some { name := "X", price := 5 } }] 10) :=
  ⟨List.mem_singleton.mpr rfl,
   order_message_and_url.2.1 { name := "A", phone := "B", address := "C" }
     [{ id := 1, user_id := "u", product_id := "px", quantity := 2,
        products := some { name := "X", price := 5 } }] 10
     { id := 1, user_id := "u", product_id := "px", quantity := 2,
       products := some { name := "X", price := 5 } }
     (List.mem_singleton.mpr rfl)⟩
